import Mathlib

/-!
Verification development for the prompt-driven web-page design agent.

The definitions below are a shallow embedding of the TypeScript core:
  - `src/lib/state/index.ts`   (session store)
  - `src/lib/agent/tools.ts`   (component tools and screen composer)
  - `src/lib/agent/index.ts`   (decision normalization and execution engine)
  - `src/lib/agent/prompts.ts` (decision-context formatting)

External calls (the reasoning service and the content-generation service)
are modeled as oracle parameters of type `Except String GenOutput`
threaded into the functions that the source resolves via `await`.
JavaScript `Map` objects are modeled as insertion-ordered association
lists with in-place overwrite on key collision, matching JS iteration
order. Timestamps are `Nat` values supplied by the caller; the
bookkeeping fields `createdAt` and `lastActivityAt`, which no claim
references, are omitted from the session record.
-/

deriving instance DecidableEq for Except

namespace AgentCore

/-- JS string falsiness fallback: `a || b` for strings. -/
def jsOr (a b : String) : String := if a = "" then b else a

/-- Tests whether `candidate` occurs at the head of `hay`. -/
def charsStartWith : List Char → List Char → Bool
  | [], _ => true
  | _ :: _, [] => false
  | a :: as, b :: bs => a = b && charsStartWith as bs

/-- Tests whether `needle` occurs contiguously anywhere inside `hay`. -/
def charsContain (needle : List Char) : List Char → Bool
  | [] => charsStartWith needle []
  | c :: rest =>
    charsStartWith needle (c :: rest) || charsContain needle rest

/-- Model of JavaScript `hay.includes(needle)`. -/
def strIncludes (hay needle : String) : Bool :=
  charsContain needle.data hay.data

/-- ASCII model of JS `toLowerCase`, kept kernel-computable. -/
def strToLower (s : String) : String := ⟨s.data.map Char.toLower⟩

/-- ASCII model of JS `toUpperCase`, kept kernel-computable. -/
def strToUpper (s : String) : String := ⟨s.data.map Char.toUpper⟩

/-! ## Data model (`src/lib/types.ts`, `src/lib/state/index.ts`) -/

/-- A content unit: `Component` in `types.ts`. The `html` field is the
generated body blob; `lastUpdatedAt` is modeled as a `Nat` tick. -/
structure Component where
  id : String
  name : String
  description : String
  html : String
  lastUpdatedAt : Nat
deriving DecidableEq, Repr

/-- One entry of the session message log. -/
structure Message where
  role : String
  content : String
  timestamp : Nat
deriving DecidableEq, Repr

/-- Optional role bindings of the current composition. -/
structure LayoutConfig where
  sidebarComponentId : Option String
  headerComponentId : Option String
  footerComponentId : Option String
deriving DecidableEq, Repr

/-- The composition record: ordered component ids plus layout data.
The layout tag is kept as its literal string form. -/
structure Screen where
  componentIds : List String
  layout : String
  layoutConfig : Option LayoutConfig
deriving DecidableEq, Repr

/-- Specification of a unit to generate (`NewComponentSpecSchema`). -/
structure NewComponentSpec where
  name : String
  description : String
  requirements : String
  styleHints : Option String
deriving DecidableEq, Repr

/-- One update request of an incremental decision. -/
structure ComponentUpdate where
  componentId : String
  changeDescription : String
deriving DecidableEq, Repr

/-- Layout request of a decision (`LayoutSpecSchema`). -/
structure LayoutSpec where
  type : String
  sidebarComponent : Option String
  headerComponent : Option String
  footerComponent : Option String
deriving DecidableEq, Repr

/-- The two decision actions. -/
inductive AgentAction where
  | REGENERATE_SCREEN
  | UPDATE_COMPONENTS
deriving DecidableEq, Repr

/-- A validated decision (`AgentDecisionSchema`). Optional fields of the
zod schema are `Option`s; `none` models an absent (undefined) field. -/
structure AgentDecision where
  action : AgentAction
  rationale : String
  createBranch : Option Bool
  updates : Option (List ComponentUpdate)
  newComponents : Option (List NewComponentSpec)
  screenOrder : Option (List String)
  regenerateSpecs : Option (List NewComponentSpec)
  layout : Option LayoutSpec
deriving DecidableEq, Repr

/-- One decision audit entry. -/
structure DecisionHistoryEntry where
  id : String
  prompt : String
  decision : AgentDecision
  timestamp : Nat
  componentsAffected : List String
deriving DecidableEq, Repr

/-- Session state. `components` models the JS `Map` as an
insertion-ordered association list. -/
structure SessionState where
  id : String
  messages : List Message
  components : List (String × Component)
  screen : Option Screen
  decisionHistory : List DecisionHistoryEntry
deriving DecidableEq, Repr

/-! ### JS `Map` semantics on the association list -/

/-- `Map.set`: overwrite in place when the key exists, else append. -/
def mapSet (m : List (String × Component)) (k : String) (v : Component) :
    List (String × Component) :=
  if m.any (fun p => decide (p.1 = k)) then
    m.map fun p => if p.1 = k then (k, v) else p
  else
    m ++ [(k, v)]

/-- `Map.get`. -/
def mapGet (m : List (String × Component)) (k : String) : Option Component :=
  (m.find? fun p => decide (p.1 = k)).map (·.2)

/-- `Map.has`. -/
def mapHas (m : List (String × Component)) (k : String) : Bool :=
  m.any fun p => decide (p.1 = k)

/-- `Array.from(map.values())`, in insertion order. -/
def mapValues (m : List (String × Component)) : List Component :=
  m.map (·.2)

/-! ### Session store operations (`src/lib/state/index.ts`) -/

/-- `addMessage`: appends to the message log. -/
def addMessage (s : SessionState) (role content : String) (now : Nat) :
    SessionState :=
  { s with messages := s.messages ++ [⟨role, content, now⟩] }

/-- `upsertComponent`: adds or overwrites one unit in the mapping. -/
def upsertComponent (s : SessionState) (c : Component) : SessionState :=
  { s with components := mapSet s.components c.id c }

/-- `updateScreen`: wholesale replacement of the composition. -/
def updateScreen (s : SessionState) (screen : Screen) : SessionState :=
  { s with screen := some screen }

/-- `addDecisionToHistory`: appends one audit entry. -/
def addDecisionToHistory (s : SessionState) (prompt : String)
    (decision : AgentDecision) (affected : List String) (now : Nat)
    (entryId : String) : SessionState :=
  { s with decisionHistory :=
      s.decisionHistory ++ [⟨entryId, prompt, decision, now, affected⟩] }

/-! ## Decision normalization (`src/lib/agent/index.ts`, `normalizeDecision`) -/

/-- The fixed branch-intent vocabulary (`branchKeywords`). -/
def branchKeywords : List String :=
  [ "new version", "another version", "different version", "create a version",
    "branch", "create a branch",
    "copy", "duplicate", "clone",
    "variant", "alternative",
    "keep the original", "without changing the original",
    "try a different", "experiment with",
    "make a copy", "create a copy" ]

/-- The fixed explicit-regeneration vocabulary (`explicitRegenKeywords`). -/
def explicitRegenKeywords : List String :=
  [ "delete everything", "start over", "start fresh", "completely new",
    "new page", "different page", "replace everything", "from scratch",
    "completely different", "total redesign", "create a new", "build a new" ]

/-- Branch-intent scan over the lowercased prompt and rationale. -/
def hasBranchIntent (promptLC rationaleLC : String) : Bool :=
  branchKeywords.any fun kw =>
    strIncludes promptLC kw || strIncludes rationaleLC kw

/-- Explicit-regeneration scan over the lowercased rationale only. -/
def isExplicitRegen (rationaleLC : String) : Bool :=
  explicitRegenKeywords.any fun kw => strIncludes rationaleLC kw

/-- `normalizeDecision`: field-misplacement repair, then branch-intent
detection, then the regeneration guard, in source order. -/
def normalizeDecision (decision : AgentDecision)
    (hasExistingComponents : Bool) (userPrompt : String) : AgentDecision :=
  let decision :=
    if decision.action = .REGENERATE_SCREEN
        ∧ decision.regenerateSpecs.getD [] = []
        ∧ decision.newComponents.getD [] ≠ [] then
      { decision with
        regenerateSpecs := decision.newComponents, newComponents := some [] }
    else decision
  let promptLC := strToLower userPrompt
  let rationaleLC := strToLower decision.rationale
  let hasBranchingIntent := hasBranchIntent promptLC rationaleLC
  let decision :=
    if hasExistingComponents = true ∧ hasBranchingIntent = true
        ∧ decision.createBranch.getD false = false then
      { decision with createBranch := some true }
    else decision
  let isExplicit := isExplicitRegen rationaleLC
  if hasExistingComponents = true ∧ decision.action = .REGENERATE_SCREEN
      ∧ isExplicit = true then
    decision
  else if hasExistingComponents = true ∧ decision.action = .REGENERATE_SCREEN
      ∧ isExplicit = false then
    let specs := decision.regenerateSpecs.getD []
    let existingNames := decision.screenOrder.getD []
    let newNames := specs.map (·.name)
    let combinedOrder :=
      existingNames ++ newNames.filter fun n => !(existingNames.contains n)
    { action := .UPDATE_COMPONENTS
      rationale := "[PROTECTED] " ++ decision.rationale
        ++ ". Adding new components while preserving existing ones."
      createBranch := decision.createBranch
      updates := some (decision.updates.getD [])
      newComponents := some specs
      screenOrder := if combinedOrder.length > 0 then some combinedOrder else none
      regenerateSpecs := none
      layout := decision.layout }
  else decision

/-! ## Tools (`src/lib/agent/tools.ts`) -/

/-- Output of one successful external generation call
(`generateComponentHtml` after schema validation and image
post-processing). -/
structure GenOutput where
  html : String
  description : String
deriving DecidableEq, Repr

/-- `findComponentByName`: case-insensitive partial name match over all
units, in mapping iteration order. -/
def findComponentByName (s : SessionState) (nameQuery : String) :
    Except String (List Component) :=
  let query := strToLower nameQuery
  let found :=
    (mapValues s.components).filter fun c => strIncludes (strToLower c.name) query
  if found.length = 0 then
    .error ("No component found matching \"" ++ nameQuery ++ "\"")
  else
    .ok found

/-- `composeScreen`: validates every id of the ordered list against the
unit mapping, then replaces the composition wholesale. The role bindings
inside `layoutConfig` are not inspected. -/
def composeScreen (s : SessionState) (componentIds : List String)
    (layout : String) (layoutConfig : Option LayoutConfig) :
    Except String Screen × SessionState :=
  match componentIds.find? (fun id => !(mapHas s.components id)) with
  | some id => (.error ("Component " ++ id ++ " not found"), s)
  | none =>
    let screen : Screen := ⟨componentIds, layout, layoutConfig⟩
    (.ok screen, updateScreen s screen)

/-- `createComponent`: `gen` is the oracle outcome of the generation
call (`.error` covers both service failure and schema-validation
failure); `freshId` models the `uuidv4()` draw. On failure the session
is returned untouched. The `requirements` and `styleHints` arguments
only feed the external prompt, so the model does not consume them. -/
def createComponent (gen : Except String GenOutput) (freshId : String)
    (now : Nat) (s : SessionState) (name description requirements : String)
    (styleHints : Option String) : Except String Component × SessionState :=
  match gen with
  | .error e => (.error e, s)
  | .ok out =>
    let component : Component :=
      { id := freshId
        name := name
        description := jsOr out.description description
        html := out.html
        lastUpdatedAt := now }
    (.ok component, upsertComponent s component)

/-- `updateComponent`: looks the unit up, then rewrites body,
description and timestamp in place on generation success; any failure
leaves the session untouched. -/
def updateComponent (gen : Except String GenOutput) (componentId : String)
    (changeRequest : String) (now : Nat) (s : SessionState) :
    Except String Component × SessionState :=
  match mapGet s.components componentId with
  | none => (.error ("Component " ++ componentId ++ " not found"), s)
  | some existing =>
    match gen with
    | .error e => (.error e, s)
    | .ok out =>
      let updated : Component :=
        { existing with
          html := out.html
          description := jsOr out.description existing.description
          lastUpdatedAt := now }
      (.ok updated, upsertComponent s updated)

/-! ## Reference resolution (`src/lib/agent/index.ts`) -/

/-- The identifier pattern of `resolveComponentId`: 36 characters drawn
from hexadecimal digits (either case) and dashes. -/
def isUuidLike (r : String) : Bool :=
  r.length = 36 && r.data.all fun c =>
    ('0' ≤ c && c ≤ '9') || ('a' ≤ c && c ≤ 'f')
      || ('A' ≤ c && c ≤ 'F') || c = '-'

/-- `resolveComponentId`: identifier-shaped strings are returned
verbatim without an existence check; otherwise the first
case-insensitive partial name match (mapping order) wins. -/
def resolveComponentId (s : SessionState) (reference : String) :
    Option String :=
  if isUuidLike reference then
    some reference
  else
    match findComponentByName s reference with
    | .ok (c :: _) => some c.id
    | _ => none

/-- `resolveComponentIdFromList`: exact case-insensitive name match over
an explicit component list. -/
def resolveComponentIdFromList (components : List Component)
    (name : String) : Option String :=
  (components.find? fun c => strToLower c.name == strToLower name).map (·.id)

/-! ## Execution engine (`src/lib/agent/index.ts`) -/

/-- One generation job of a batch: the spec together with its oracle
outcome and the `uuidv4()` draw for the unit it would create. -/
abbrev GenJob := NewComponentSpec × Except String GenOutput × String

/-- Runs the creation calls of one batch. The source issues them through
`Promise.all`; the jobs are independent (fresh ids, no reads), so the
settled batch is modeled as left-to-right accumulation over the session,
collecting each call's result in spec order. -/
def runCreates (now : Nat) :
    SessionState → List GenJob → List (Except String Component) × SessionState
  | s, [] => ([], s)
  | s, (spec, gen, fid) :: rest =>
    let (r, s1) := createComponent gen fid now s spec.name spec.description
      spec.requirements spec.styleHints
    let (rs, s2) := runCreates now s1 rest
    (r :: rs, s2)

/-- Keeps the payloads of the succeeding calls of a settled batch, in
order — the filtering loop both execution paths run over their results. -/
def collectOk (results : List (Except String Component)) : List Component :=
  results.filterMap fun r =>
    match r with
    | .ok c => some c
    | .error _ => none

/-- JS truthiness guard of `layout.sidebarComponent ? resolve(...) :
undefined` used when composing a regenerated screen. -/
def resolveBinding (cs : List Component) (nm : Option String) :
    Option String :=
  match nm with
  | some n => if n = "" then none else resolveComponentIdFromList cs n
  | none => none

/-- `executeRegenerate`: generate every spec (failures dropped), fail
wholesale when nothing succeeded, else compose the survivors in spec
order with the requested layout. `gens` and `freshIds` are the oracle
outcomes and id draws, positionally matched with `specs`. -/
def executeRegenerate (gens : List (Except String GenOutput))
    (freshIds : List String) (now : Nat) (s : SessionState)
    (specs : List NewComponentSpec) (layout : Option LayoutSpec) :
    Except String (List Component) × SessionState :=
  let (results, s1) := runCreates now s (specs.zip (gens.zip freshIds))
  let createdComponents := collectOk results
  if createdComponents.length = 0 then
    (.error "Failed to create any components", s1)
  else
    let componentIds := createdComponents.map (·.id)
    let layoutType := jsOr ((layout.map (·.type)).getD "") "stack"
    let layoutConfig := layout.map fun l =>
      LayoutConfig.mk
        (resolveBinding createdComponents l.sidebarComponent)
        (resolveBinding createdComponents l.headerComponent)
        (resolveBinding createdComponents l.footerComponent)
    match composeScreen s1 componentIds layoutType layoutConfig with
    | (.error e, s2) => (.error ("Failed to compose screen: " ++ e), s2)
    | (.ok _, s2) => (.ok createdComponents, s2)

/-- One resolved update job: target id, change description, oracle
outcome. -/
abbrev UpdateJob := String × String × Except String GenOutput

/-- Applies the queued update calls of one batch, left to right. -/
def applyUpdates (now : Nat) : SessionState → List UpdateJob → SessionState
  | s, [] => s
  | s, (cid, change, gen) :: rest =>
    applyUpdates now (updateComponent gen cid change now s).2 rest

/-- `executeUpdate`: resolves update targets against the pre-batch
session (unresolvable ones skipped), runs updates and creations,
then determines the final composition exactly as the source does.
`updateGens` pairs with `decision.updates`, `createGens` and `freshIds`
with `decision.newComponents`. The compose result is discarded, as in
the source. -/
def executeUpdate (updateGens createGens : List (Except String GenOutput))
    (freshIds : List String) (now : Nat) (s : SessionState)
    (decision : AgentDecision) : SessionState :=
  let resolvedUpdates : List UpdateJob :=
    ((decision.updates.getD []).zip updateGens).filterMap fun ug =>
      (resolveComponentId s ug.1.componentId).map fun cid =>
        (cid, ug.1.changeDescription, ug.2)
  let s1 := applyUpdates now s resolvedUpdates
  let (createResults, s2) := runCreates now s1
    ((decision.newComponents.getD []).zip (createGens.zip freshIds))
  let newComponents := collectOk createResults
  let allComponents := mapValues s2.components ++ newComponents
  let layoutType := jsOr ((decision.layout.map (·.type)).getD "")
    (jsOr ((s2.screen.map (·.layout)).getD "") "stack")
  let layoutConfig :=
    match decision.layout with
    | some l =>
      let prior := s2.screen.bind (·.layoutConfig)
      some (LayoutConfig.mk
        (match l.sidebarComponent with
         | some n => if n = "" then prior.bind (·.sidebarComponentId)
            else resolveComponentIdFromList allComponents n
         | none => prior.bind (·.sidebarComponentId))
        (match l.headerComponent with
         | some n => if n = "" then prior.bind (·.headerComponentId)
            else resolveComponentIdFromList allComponents n
         | none => prior.bind (·.headerComponentId))
        (match l.footerComponent with
         | some n => if n = "" then prior.bind (·.footerComponentId)
            else resolveComponentIdFromList allComponents n
         | none => prior.bind (·.footerComponentId)))
    | none => s2.screen.bind (·.layoutConfig)
  if decision.screenOrder.getD [] ≠ [] then
    let orderedIds := (decision.screenOrder.getD []).filterMap fun nameOrId =>
      match newComponents.find? (fun c => strToLower c.name == strToLower nameOrId) with
      | some c => some c.id
      | none => resolveComponentId s2 nameOrId
    if orderedIds ≠ [] then
      (composeScreen s2 orderedIds layoutType layoutConfig).2
    else s2
  else if newComponents ≠ [] ∧ s2.screen ≠ none then
    let existingIds := (s2.screen.map (·.componentIds)).getD []
    (composeScreen s2 (existingIds ++ newComponents.map (·.id))
      layoutType layoutConfig).2
  else if newComponents ≠ [] then
    (composeScreen s2 (newComponents.map (·.id)) layoutType layoutConfig).2
  else if decision.layout ≠ none ∧ s2.screen ≠ none then
    (composeScreen s2 ((s2.screen.map (·.componentIds)).getD [])
      layoutType layoutConfig).2
  else s2

/-! ## Main entry point (`runAgent`) -/

/-- Result record of one `runAgent` call. The serialized session view
the source attaches is derived from the final session state, which the
model returns alongside. -/
structure AgentResult where
  success : Bool
  rationale : Option String
  error : Option String
  decision : Option AgentDecision
deriving DecidableEq, Repr

/-- `getComponentsAffected`. -/
def getComponentsAffected (decision : AgentDecision) : List String :=
  (decision.updates.getD []).map (·.componentId)
    ++ (decision.newComponents.getD []).map (·.name)
    ++ (decision.regenerateSpecs.getD []).map (·.name)

/-- `formatAssistantResponse`. -/
def formatAssistantResponse (decision : AgentDecision) : String :=
  if decision.action = .REGENERATE_SCREEN then
    let componentNames :=
      String.intercalate ", " ((decision.regenerateSpecs.getD []).map (·.name))
    "Created a new screen with components: " ++ componentNames ++ ". "
      ++ decision.rationale
  else
    let parts :=
      (if (decision.updates.getD []) ≠ [] then
        ["Updated: " ++ String.intercalate ", "
          ((decision.updates.getD []).map (·.componentId))]
      else [])
      ++ (if (decision.newComponents.getD []) ≠ [] then
        ["Added: " ++ String.intercalate ", "
          ((decision.newComponents.getD []).map (·.name))]
      else [])
      ++ (if (decision.screenOrder.getD []) ≠ [] then ["Reordered screen"]
      else [])
    if parts ≠ [] then
      String.intercalate ". " parts ++ ". " ++ decision.rationale
    else
      decision.rationale

/-- The success epilogue of `runAgent`: assistant message, audit entry,
success result. -/
def completeRun (decision : AgentDecision) (prompt : String)
    (s : SessionState) (entryId : String) (now : Nat) :
    AgentResult × SessionState :=
  let s1 := addMessage s "assistant" (formatAssistantResponse decision) now
  let s2 := addDecisionToHistory s1 prompt decision
    (getComponentsAffected decision) now entryId
  ({ success := true, rationale := some decision.rationale,
     error := none, decision := some decision }, s2)

/-- `runAgent` on an existing session. `decisionResult` is the settled
outcome of `makeDecision` (already normalized on success; `.error`
models a `DecisionParseError` or service failure, which the source
surfaces through its catch-all). `updateGens`, `createGens` and
`freshIds` are the generation oracles for the execution phase. -/
def runAgent (s : SessionState) (prompt : String)
    (decisionResult : Except String AgentDecision)
    (updateGens createGens : List (Except String GenOutput))
    (freshIds : List String) (entryId : String) (now : Nat) :
    AgentResult × SessionState :=
  let s1 := addMessage s "user" prompt now
  match decisionResult with
  | .error e =>
    ({ success := false, rationale := none, error := some e,
       decision := none }, s1)
  | .ok decision =>
    if decision.action = .REGENERATE_SCREEN then
      if decision.regenerateSpecs.getD [] = [] then
        ({ success := false, rationale := none,
           error := some "REGENERATE_SCREEN requires regenerateSpecs",
           decision := none }, s1)
      else
        let s2 : SessionState := { s1 with components := [], screen := none }
        match executeRegenerate createGens freshIds now s2
            (decision.regenerateSpecs.getD []) decision.layout with
        | (.error e, s3) =>
          ({ success := false, rationale := some decision.rationale,
             error := some e, decision := none }, s3)
        | (.ok _, s3) => completeRun decision prompt s3 entryId now
    else
      let s3 := executeUpdate updateGens createGens freshIds now s1 decision
      completeRun decision prompt s3 entryId now

/-! ## Decision context (`makeDecision` and `formatStateForDecision`) -/

/-- The current screen order expressed as unit names, as `makeDecision`
computes it (falling back to the raw id when the unit is unknown or its
name is empty). -/
def screenOrderNames (s : SessionState) : List String :=
  match s.screen with
  | some scr => scr.componentIds.map fun id =>
      match mapGet s.components id with
      | some c => jsOr c.name id
      | none => id
  | none => []

/-- JS `xs.slice(-n)`: the last `n` elements. -/
def takeLast (n : Nat) (xs : List α) : List α :=
  (xs.reverse.take n).reverse

/-- `formatStateForDecision` from `prompts.ts`, transcribed literally.
`currentLayout` is the optional fifth parameter of the source. -/
def formatStateForDecision (userPrompt : String)
    (messageHistory : List (String × String)) (components : List Component)
    (screenOrderList : List String) (currentLayout : Option String) :
    String :=
  let hasComponents := components.length > 0
  let context :=
    if hasComponents then
      "## CURRENT STATE (YOU HAVE EXISTING COMPONENTS!)\n    \nEXISTING COMPONENTS ("
        ++ toString components.length ++ "):\n"
        ++ String.intercalate "\n" (components.enum.map fun p =>
            toString (p.1 + 1) ++ ". \"" ++ p.2.name ++ "\" - " ++ p.2.description)
        ++ "\n\nCURRENT SCREEN ORDER: "
        ++ String.intercalate " → " screenOrderList
        ++ "\nCURRENT LAYOUT: " ++ jsOr (currentLayout.getD "") "stack"
        ++ "\n\n⚠️ IMPORTANT: Since components exist, you should use UPDATE_COMPONENTS unless the user explicitly wants to start over.\n"
    else
      "## CURRENT STATE\nNo components exist yet. Use REGENERATE_SCREEN to create the initial page.\n"
  let context :=
    if messageHistory.length > 0 then
      context ++ "\n## RECENT CONVERSATION\n"
        ++ String.intercalate "\n" ((takeLast 6 messageHistory).map fun m =>
            strToUpper m.1 ++ ": " ++ m.2)
        ++ "\n"
    else context
  context ++ "\n## USER\x27S NEW REQUEST\n\"" ++ userPrompt
    ++ "\"\n\n## YOUR DECISION\nAnalyze the request and return the appropriate JSON response.\n"
    ++ (if hasComponents then
        "Remember: UPDATE existing components, do NOT regenerate unless explicitly asked!"
      else "")
    ++ "\n\nIMPORTANT: Always specify the \"layout\" field based on the type of page:\n- Dashboards/admin panels → \"sidebar-left\" or \"holy-grail\"\n- Landing pages/blogs → \"stack\"\n- Comparison pages → \"grid-2\" or \"grid-3\""

/-- The context summary `makeDecision` submits to the reasoning service:
last 10 messages projected to role and content, all units, screen order
as names — and no layout argument, exactly as the call site omits the
optional fifth parameter. -/
def decisionContext (s : SessionState) (userPrompt : String) : String :=
  let components := mapValues s.components
  let messageHistory := (takeLast 10 s.messages).map fun m => (m.role, m.content)
  formatStateForDecision userPrompt messageHistory components
    (screenOrderNames s) none

/-- Truth value of one generation oracle outcome. -/
def genOk : Except String GenOutput → Bool
  | .ok _ => true
  | .error _ => false

/-- The settled result of one generation job, as `createComponent`
produces it. -/
def mkCreated (now : Nat) (j : GenJob) : Except String Component :=
  match j.2.1 with
  | .error e => .error e
  | .ok out =>
    .ok ⟨j.2.2, j.1.name, jsOr out.description j.1.description, out.html, now⟩

/-- The units a batch creates: one per succeeding job, in job order. -/
def createdOf (now : Nat) (jobs : List GenJob) : List Component :=
  jobs.filterMap fun j =>
    match j.2.1 with
    | .ok out =>
      some ⟨j.2.2, j.1.name, jsOr out.description j.1.description, out.html, now⟩
    | .error _ => none

/-- The fresh ids of the succeeding jobs, in job order. -/
def okIds (jobs : List GenJob) : List String :=
  jobs.filterMap fun j =>
    match j.2.1 with
    | .ok _ => some j.2.2
    | .error _ => none

/-! ## Concrete fixtures used by witnesses and counterexamples -/

/-- A session unit named Header. -/
def headerComp : Component :=
  ⟨"11111111-1111-1111-1111-111111111111", "Header", "top bar", "<header/>", 0⟩

/-- A session unit named Footer. -/
def footerComp : Component :=
  ⟨"22222222-2222-2222-2222-222222222222", "Footer", "bottom bar", "<footer/>", 0⟩

/-- A session holding Header and Footer, composed in that order. -/
def exSession : SessionState :=
  ⟨"s1", [], [(headerComp.id, headerComp), (footerComp.id, footerComp)],
   some ⟨[headerComp.id, footerComp.id], "stack", none⟩, []⟩

/-- A regeneration spec for a Hero unit. -/
def heroSpec : NewComponentSpec := ⟨"Hero", "big hero", "make it big", none⟩

/-- A full-regeneration decision whose rationale carries no
explicit-intent phrase. -/
def dRegen : AgentDecision :=
  { action := .REGENERATE_SCREEN, rationale := "refresh the page",
    createBranch := none, updates := none, newComponents := none,
    screenOrder := none, regenerateSpecs := some [heroSpec], layout := none }

/-- The same decision with a rationale carrying the explicit-intent
phrase from scratch. -/
def dC5 : AgentDecision := { dRegen with rationale := "rebuild from scratch" }

/-- A session with units Header then Header Section, inserted in that
order. -/
def hdrSession : SessionState :=
  ⟨"s2", [],
   [("aaaaaaaa-aaaa-aaaa-aaaa-aaaaaaaaaaaa",
     ⟨"aaaaaaaa-aaaa-aaaa-aaaa-aaaaaaaaaaaa", "Header", "d1", "<h/>", 0⟩),
    ("bbbbbbbb-bbbb-bbbb-bbbb-bbbbbbbbbbbb",
     ⟨"bbbbbbbb-bbbb-bbbb-bbbb-bbbbbbbbbbbb", "Header Section", "d2", "<hs/>", 0⟩)],
   none, []⟩

/-- A session whose current composition carries the layout tag grid-2. -/
def s9 : SessionState :=
  ⟨"s9", [], [(headerComp.id, headerComp), (footerComp.id, footerComp)],
   some ⟨[headerComp.id, footerComp.id], "grid-2", none⟩, []⟩

/-- A five-spec regeneration batch. -/
def specsW : List NewComponentSpec :=
  [⟨"Header", "d1", "r1", none⟩, ⟨"Hero", "d2", "r2", none⟩,
   ⟨"Gallery", "d3", "r3", none⟩, ⟨"Pricing", "d4", "r4", none⟩,
   ⟨"Footer", "d5", "r5", none⟩]

/-- Oracle outcomes for the batch: calls 2 and 4 fail. -/
def gensW : List (Except String GenOutput) :=
  [.ok ⟨"<header/>", "h"⟩, .error "timeout", .ok ⟨"<gal/>", "g"⟩,
   .error "bad json", .ok ⟨"<footer/>", "f"⟩]

/-- Fresh id draws for the batch. -/
def idsW : List String := ["id-1", "id-2", "id-3", "id-4", "id-5"]

/-- An empty session. -/
def sEmpty : SessionState := ⟨"s0", [], [], none, []⟩

/-! ## Helper lemmas -/

lemma normalizeDecision_createBranch (d : AgentDecision) (h : Bool) (p : String) :
    (normalizeDecision d h p).createBranch =
      if h = true ∧ hasBranchIntent (strToLower p) (strToLower d.rationale) = true
          ∧ d.createBranch.getD false = false
      then some true else d.createBranch := by
  unfold normalizeDecision
  dsimp only
  split <;> split <;> split <;> first | rfl | (try split) <;> simp_all

lemma mapHas_mapSet_self (m : List (String × Component)) (k : String) (v : Component) :
    mapHas (mapSet m k v) k = true := by
  unfold mapHas mapSet
  split
  · rename_i h
    simp only [List.any_eq_true, decide_eq_true_eq] at h ⊢
    obtain ⟨p, hp, hpk⟩ := h
    exact ⟨(k, v), List.mem_map.2 ⟨p, hp, by simp [hpk]⟩, rfl⟩
  · simp

lemma mapHas_mapSet_mono (m : List (String × Component)) (k k' : String)
    (v : Component) (h : mapHas m k' = true) :
    mapHas (mapSet m k v) k' = true := by
  unfold mapHas mapSet at *
  split
  · simp only [List.any_eq_true, decide_eq_true_eq] at h ⊢
    obtain ⟨p, hp, hpk⟩ := h
    refine ⟨if p.1 = k then (k, v) else p, List.mem_map.2 ⟨p, hp, rfl⟩, ?_⟩
    split <;> simp_all
  · simp only [List.any_append, h, Bool.true_or]

lemma createdOf_map_id (now : Nat) (jobs : List GenJob) :
    (createdOf now jobs).map Component.id = okIds jobs := by
  induction jobs with
  | nil => rfl
  | cons j rest ih =>
    rcases j with ⟨spec, gen, fid⟩
    cases gen <;> simp [createdOf, okIds] at ih ⊢ <;> exact ih

lemma runCreates_results (now : Nat) (jobs : List GenJob) (s : SessionState) :
    (runCreates now s jobs).1 = jobs.map (mkCreated now) := by
  induction jobs generalizing s with
  | nil => rfl
  | cons j rest ih =>
    rcases j with ⟨spec, gen, fid⟩
    cases gen <;> simp [runCreates, createComponent, mkCreated, ih]

lemma runCreates_mapHas_mono (now : Nat) (jobs : List GenJob) (s : SessionState)
    (k : String) (h : mapHas s.components k = true) :
    mapHas (runCreates now s jobs).2.components k = true := by
  induction jobs generalizing s with
  | nil => exact h
  | cons j rest ih =>
    rcases j with ⟨spec, gen, fid⟩
    cases gen with
    | error e => exact ih s h
    | ok out =>
      simp only [runCreates, createComponent]
      exact ih _ (mapHas_mapSet_mono _ _ _ _ h)

lemma runCreates_mapHas_ok (now : Nat) (jobs : List GenJob) (s : SessionState)
    (spec : NewComponentSpec) (out : GenOutput) (fid : String)
    (hmem : (spec, Except.ok out, fid) ∈ jobs) :
    mapHas (runCreates now s jobs).2.components fid = true := by
  induction jobs generalizing s with
  | nil => cases hmem
  | cons j rest ih =>
    rcases List.mem_cons.1 hmem with hj | hj
    · subst hj
      simp only [runCreates, createComponent]
      exact runCreates_mapHas_mono now rest _ fid (mapHas_mapSet_self _ _ _)
    · rcases j with ⟨spec', gen', fid'⟩
      cases gen' with
      | error e => exact ih _ hj
      | ok out' =>
        simp only [runCreates, createComponent]
        exact ih _ hj

lemma runCreates_allFail (now : Nat) (jobs : List GenJob) (s : SessionState)
    (h : ∀ j ∈ jobs, ∀ out : GenOutput, j.2.1 ≠ Except.ok out) :
    (runCreates now s jobs).2 = s := by
  induction jobs generalizing s with
  | nil => rfl
  | cons j rest ih =>
    rcases j with ⟨spec, gen, fid⟩
    cases gen with
    | error e =>
      simp only [runCreates, createComponent]
      exact ih s fun j hj => h j (List.mem_cons_of_mem _ hj)
    | ok out => exact absurd rfl (h _ (List.mem_cons_self _ _) out)

lemma collectOk_mkCreated (now : Nat) (jobs : List GenJob) :
    collectOk (jobs.map (mkCreated now)) = createdOf now jobs := by
  induction jobs with
  | nil => rfl
  | cons j rest ih =>
    rcases j with ⟨spec, gen, fid⟩
    cases gen <;> simp [collectOk, mkCreated, createdOf] at ih ⊢ <;> exact ih

lemma runCreates_mapHas_okIds (now : Nat) (jobs : List GenJob)
    (s : SessionState) (x : String) (hx : x ∈ okIds jobs) :
    mapHas (runCreates now s jobs).2.components x = true := by
  simp only [okIds, List.mem_filterMap] at hx
  obtain ⟨j, hj, hfx⟩ := hx
  rcases j with ⟨spec, gen, fid⟩
  cases gen with
  | error e => simp at hfx
  | ok out =>
    simp only [Option.some_inj] at hfx
    subst hfx
    exact runCreates_mapHas_ok now jobs s spec out fid hj

lemma executeRegenerate_allFail (gens : List (Except String GenOutput))
    (ids : List String) (now : Nat) (s : SessionState)
    (specs : List NewComponentSpec) (layout : Option LayoutSpec)
    (h : createdOf now (specs.zip (gens.zip ids)) = []) :
    executeRegenerate gens ids now s specs layout =
      (.error "Failed to create any components", s) := by
  have hstate : (runCreates now s (specs.zip (gens.zip ids))).2 = s := by
    apply runCreates_allFail
    intro j hj out hout
    simp only [createdOf, List.filterMap_eq_nil_iff] at h
    have h2 := h j hj
    rw [hout] at h2
    simp at h2
  have hr : runCreates now s (specs.zip (gens.zip ids)) =
      ((specs.zip (gens.zip ids)).map (mkCreated now), s) := by
    refine Prod.ext ?_ ?_
    · exact runCreates_results now _ s
    · exact hstate
  simp only [executeRegenerate, hr, collectOk_mkCreated, h]
  rfl

lemma executeRegenerate_ok (gens : List (Except String GenOutput))
    (ids : List String) (now : Nat) (s : SessionState)
    (specs : List NewComponentSpec) (layout : Option LayoutSpec)
    (h : createdOf now (specs.zip (gens.zip ids)) ≠ []) :
    executeRegenerate gens ids now s specs layout =
      (.ok (createdOf now (specs.zip (gens.zip ids))),
        updateScreen (runCreates now s (specs.zip (gens.zip ids))).2
          ⟨okIds (specs.zip (gens.zip ids)),
           jsOr ((layout.map (·.type)).getD "") "stack",
           layout.map fun l =>
             ⟨resolveBinding (createdOf now (specs.zip (gens.zip ids))) l.sidebarComponent,
              resolveBinding (createdOf now (specs.zip (gens.zip ids))) l.headerComponent,
              resolveBinding (createdOf now (specs.zip (gens.zip ids))) l.footerComponent⟩⟩) := by
  have hmh : ∀ x ∈ okIds (specs.zip (gens.zip ids)),
      mapHas (runCreates now s (specs.zip (gens.zip ids))).2.components x = true :=
    fun x hx => runCreates_mapHas_okIds now _ s x hx
  rcases hrs : runCreates now s (specs.zip (gens.zip ids)) with ⟨results, s1⟩
  have hres : results = (specs.zip (gens.zip ids)).map (mkCreated now) := by
    have h1 := runCreates_results now (specs.zip (gens.zip ids)) s
    rw [hrs] at h1
    exact h1
  subst hres
  simp only [executeRegenerate, hrs, collectOk_mkCreated]
  rw [if_neg (by simpa using h)]
  have hfind : List.find? (fun id => !(mapHas s1.components id))
      (okIds (specs.zip (gens.zip ids))) = none := by
    rw [List.find?_eq_none]
    intro x hx
    have h2 := hmh x hx
    rw [hrs] at h2
    simp only at h2
    simp [h2]
  simp only [composeScreen, createdOf_map_id, hfind, updateScreen, hrs]

lemma createdOf_eq_nil_iff (now : Nat) (jobs : List GenJob) :
    createdOf now jobs = [] ↔ okIds jobs = [] := by
  constructor <;> intro h
  · rw [← createdOf_map_id, h]
    rfl
  · have h2 := createdOf_map_id now jobs
    rw [h] at h2
    exact List.map_eq_nil_iff.1 h2

lemma createdOf_eq_nil_of_allFail (now : Nat) (specs : List NewComponentSpec)
    (cg : List (Except String GenOutput)) (ids : List String)
    (h : ∀ g ∈ cg, genOk g = false) :
    createdOf now (specs.zip (cg.zip ids)) = [] := by
  rw [createdOf, List.filterMap_eq_nil_iff]
  intro j hj
  rcases j with ⟨spec, gen, fid⟩
  have h2 : (gen, fid) ∈ cg.zip ids := (List.of_mem_zip hj).2
  have hg : gen ∈ cg := (List.of_mem_zip h2).1
  cases gen with
  | ok out => simpa [genOk] using h _ hg
  | error e => rfl

lemma runAgent_regen_allFail (s : SessionState) (prompt : String)
    (d : AgentDecision) (ug cg : List (Except String GenOutput))
    (ids : List String) (eid : String) (now : Nat)
    (hact : d.action = .REGENERATE_SCREEN)
    (hspecs : d.regenerateSpecs.getD [] ≠ [])
    (hfail : createdOf now ((d.regenerateSpecs.getD []).zip (cg.zip ids)) = []) :
    runAgent s prompt (.ok d) ug cg ids eid now =
      ({ success := false, rationale := some d.rationale,
         error := some "Failed to create any components", decision := none },
       { s with messages := s.messages ++ [⟨"user", prompt, now⟩],
                components := [], screen := none }) := by
  simp only [runAgent, addMessage]
  rw [if_pos hact, if_neg hspecs]
  rw [executeRegenerate_allFail _ _ _ _ _ _ hfail]

lemma composeScreen_missing (s : SessionState) (ids : List String)
    (layout : String) (cfg : Option LayoutConfig)
    (h : ∃ i ∈ ids, mapHas s.components i = false) :
    ∃ i ∈ ids, mapHas s.components i = false ∧
      composeScreen s ids layout cfg =
        (.error ("Component " ++ i ++ " not found"), s) := by
  rcases hfind : ids.find? (fun id => !(mapHas s.components id)) with _ | i
  · exfalso
    obtain ⟨i, hi, hmi⟩ := h
    have h2 := List.find?_eq_none.1 hfind i hi
    simp [hmi] at h2
  · have hp := List.find?_some hfind
    have hm := List.mem_of_find?_eq_some hfind
    simp only [Bool.not_eq_true'] at hp
    exact ⟨i, hm, hp, by simp only [composeScreen, hfind]⟩

lemma composeScreen_allPresent (s : SessionState) (ids : List String)
    (layout : String) (cfg : Option LayoutConfig)
    (h : ∀ i ∈ ids, mapHas s.components i = true) :
    composeScreen s ids layout cfg =
      (.ok ⟨ids, layout, cfg⟩, { s with screen := some ⟨ids, layout, cfg⟩ }) := by
  have hfind : ids.find? (fun id => !(mapHas s.components id)) = none :=
    List.find?_eq_none.2 fun x hx => by simp [h x hx]
  simp only [composeScreen, hfind, updateScreen]

lemma resolveComponentId_uuid (s : SessionState) (r : String)
    (h : isUuidLike r = true) : resolveComponentId s r = some r := by
  simp only [resolveComponentId, h, if_true]

lemma resolveComponentId_name (s : SessionState) (r : String)
    (h : isUuidLike r = false) :
    resolveComponentId s r =
      (((mapValues s.components).filter fun c =>
          strIncludes (strToLower c.name) (strToLower r)).head?).map
        Component.id := by
  unfold resolveComponentId findComponentByName
  rw [if_neg (by simp [h])]
  dsimp only
  rcases hf : (mapValues s.components).filter
      (fun c => strIncludes (strToLower c.name) (strToLower r)) with _ | ⟨c, cs⟩ <;>
    rw [hf] <;> simp

/-! ## Claim theorems -/

/-- C1 (amended): against a session with existing units, a
full-regeneration decision with nonempty regeneration specs whose
rationale carries no explicit-intent phrase is downgraded by
`normalizeDecision` to an incremental update whose new-components list
equals the original regeneration specs, whose rationale is the original
one prefixed with the PROTECTED marker, whose branch flag is the flag
after branch-intent detection, and whose synthesized screen order is the
decision's own screenOrder field followed by the not-yet-listed new unit
names — the session's existing composition order is not consulted. -/
theorem regen_guard_downgrade (d : AgentDecision) (p : String)
    (hact : d.action = .REGENERATE_SCREEN)
    (hspecs : d.regenerateSpecs.getD [] ≠ [])
    (hexp : isExplicitRegen (strToLower d.rationale) = false) :
    normalizeDecision d true p =
      { action := .UPDATE_COMPONENTS
        rationale := "[PROTECTED] " ++ d.rationale
          ++ ". Adding new components while preserving existing ones."
        createBranch :=
          if hasBranchIntent (strToLower p) (strToLower d.rationale) = true
              ∧ d.createBranch.getD false = false
          then some true else d.createBranch
        updates := some (d.updates.getD [])
        newComponents := some (d.regenerateSpecs.getD [])
        screenOrder :=
          (let combined := d.screenOrder.getD []
              ++ (((d.regenerateSpecs.getD []).map (·.name)).filter
                  fun n => !((d.screenOrder.getD []).contains n));
           if combined.length > 0 then some combined else none)
        regenerateSpecs := none
        layout := d.layout } := by
  simp only [normalizeDecision, hact, hspecs, hexp]
  simp
  split <;> simp_all

/-- C1 witness: the guard at work on a concrete weakly-justified
regeneration over a session with Header and Footer. -/
theorem regen_guard_downgrade_witness :
    normalizeDecision dRegen true "refresh it" =
      { action := .UPDATE_COMPONENTS
        rationale := "[PROTECTED] refresh the page. Adding new components while preserving existing ones."
        createBranch := none
        updates := some []
        newComponents := some [heroSpec]
        screenOrder := some ["Hero"]
        regenerateSpecs := none
        layout := none } :=
  (regen_guard_downgrade dRegen "refresh it" (by decide) (by decide)
    (by decide)).trans (by decide)

/-- C1 counterexample: the claim says the synthesized screen order
appends the new unit names after the existing composition order; on a
session composed as Header, Footer the downgraded order is just the new
name Hero, because `normalizeDecision` reads the decision's own (absent)
screenOrder field and never sees the session's composition. -/
theorem regen_guard_order_counterexample :
    0 < (mapValues exSession.components).length
    ∧ dRegen.action = .REGENERATE_SCREEN
    ∧ isExplicitRegen (strToLower dRegen.rationale) = false
    ∧ screenOrderNames exSession = ["Header", "Footer"]
    ∧ (normalizeDecision dRegen true "refresh it").screenOrder = some ["Hero"]
    ∧ (normalizeDecision dRegen true "refresh it").screenOrder
        ≠ some (screenOrderNames exSession ++ ["Hero"]) := by decide

/-- C2 (amended): when decision-making settles in an error, `runAgent`
returns a failure carrying that error, and the final session equals the
initial one except that the user prompt has already been appended to the
message log; unit mapping, composition and audit log are untouched. -/
theorem decision_failure_frame (s : SessionState) (prompt e : String)
    (ug cg : List (Except String GenOutput)) (ids : List String)
    (eid : String) (now : Nat) :
    runAgent s prompt (.error e) ug cg ids eid now =
      ({ success := false, rationale := none, error := some e, decision := none },
       { s with messages := s.messages ++ [⟨"user", prompt, now⟩] }) := rfl

/-- C2 counterexample: the claim says the message log is exactly as it
was before the call; on a concrete failing call the log has grown by the
user message. -/
theorem decision_failure_message_log_counterexample :
    (runAgent exSession "hi"
        (.error "Failed to parse agent decision after retry: bad")
        [] [] [] "e1" 5).1.success = false
    ∧ (runAgent exSession "hi"
        (.error "Failed to parse agent decision after retry: bad")
        [] [] [] "e1" 5).2.messages ≠ exSession.messages := by decide

/-- C3 (amended): `composeScreen` validates exactly the entries of the
ordered identifier list — if any entry is missing from the unit mapping
it fails with the unknown-unit error and leaves the session unchanged,
otherwise it atomically replaces the composition with the given list,
layout and bindings; the role bindings themselves are never checked. -/
theorem compose_validates_ordered_list (s : SessionState) (ids : List String)
    (layout : String) (cfg : Option LayoutConfig) :
    ((∃ i ∈ ids, mapHas s.components i = false) →
      ∃ i ∈ ids, mapHas s.components i = false ∧
        composeScreen s ids layout cfg =
          (.error ("Component " ++ i ++ " not found"), s))
    ∧ ((∀ i ∈ ids, mapHas s.components i = true) →
      composeScreen s ids layout cfg =
        (.ok ⟨ids, layout, cfg⟩, { s with screen := some ⟨ids, layout, cfg⟩ })) :=
  ⟨composeScreen_missing s ids layout cfg,
   composeScreen_allPresent s ids layout cfg⟩

/-- C3 witness: a dangling ordered-list entry fails and leaves the
session untouched; a valid list atomically replaces the composition. -/
theorem compose_validates_ordered_list_witness :
    (∃ i ∈ ["33333333-3333-3333-3333-333333333333"],
      mapHas exSession.components i = false ∧
        composeScreen exSession ["33333333-3333-3333-3333-333333333333"]
          "stack" none =
          (.error ("Component " ++ i ++ " not found"), exSession))
    ∧ composeScreen exSession [footerComp.id] "grid-2" none =
        (.ok ⟨[footerComp.id], "grid-2", none⟩,
         { exSession with screen := some ⟨[footerComp.id], "grid-2", none⟩ }) :=
  ⟨(compose_validates_ordered_list exSession _ "stack" none).1
      ⟨"33333333-3333-3333-3333-333333333333", by decide, by decide⟩,
   (compose_validates_ordered_list exSession _ "grid-2" none).2 (by decide)⟩

/-- C3 counterexample: the claim says any dangling role binding makes
the compose call fail with no change; a header binding to a nonexistent
identifier is accepted and the composition is replaced. -/
theorem compose_role_binding_counterexample :
    mapHas exSession.components "99999999-9999-9999-9999-999999999999" = false
    ∧ (composeScreen exSession [headerComp.id] "stack"
        (some ⟨none, some "99999999-9999-9999-9999-999999999999", none⟩)).1
        = .ok ⟨[headerComp.id], "stack",
            some ⟨none, some "99999999-9999-9999-9999-999999999999", none⟩⟩
    ∧ (composeScreen exSession [headerComp.id] "stack"
        (some ⟨none, some "99999999-9999-9999-9999-999999999999", none⟩)).2.screen
        ≠ exSession.screen := by decide

/-- C4: in a full-regeneration batch, failed generations are dropped
without aborting the batch; if every job fails the call returns the
batch-level error with the session untouched by the batch, and if at
least one succeeds the call succeeds and the resulting composition holds
exactly the fresh identifiers of the succeeding specs, in specification
order. -/
theorem regen_partial_failure_tolerance (s : SessionState)
    (specs : List NewComponentSpec) (gens : List (Except String GenOutput))
    (ids : List String) (layout : Option LayoutSpec) (now : Nat) :
    (okIds (specs.zip (gens.zip ids)) = [] →
      executeRegenerate gens ids now s specs layout =
        (.error "Failed to create any components", s))
    ∧ (okIds (specs.zip (gens.zip ids)) ≠ [] →
      (executeRegenerate gens ids now s specs layout).1 =
          .ok (createdOf now (specs.zip (gens.zip ids)))
        ∧ (createdOf now (specs.zip (gens.zip ids))).map Component.id =
            okIds (specs.zip (gens.zip ids))
        ∧ ((executeRegenerate gens ids now s specs layout).2).screen.map
            Screen.componentIds = some (okIds (specs.zip (gens.zip ids)))) := by
  constructor
  · intro h
    exact executeRegenerate_allFail gens ids now s specs layout
      ((createdOf_eq_nil_iff now _).2 h)
  · intro h
    have hne : createdOf now (specs.zip (gens.zip ids)) ≠ [] :=
      fun hc => h ((createdOf_eq_nil_iff now _).1 hc)
    rw [executeRegenerate_ok gens ids now s specs layout hne]
    exact ⟨rfl, createdOf_map_id now _, rfl⟩

/-- C4 witness: five specs with calls 2 and 4 failing compose exactly
the three surviving units, in specification order. -/
theorem regen_partial_failure_tolerance_witness :
    ((executeRegenerate gensW idsW 3 sEmpty specsW none).2).screen.map
      Screen.componentIds = some ["id-1", "id-3", "id-5"] := by
  have h := (regen_partial_failure_tolerance sEmpty specsW gensW idsW none 3).2
    (by decide)
  exact h.2.2.trans (by decide)

/-- C5 (amended): a full-regeneration decision with nonempty specs whose
rationale carries an explicit-intent phrase passes `normalizeDecision`
with its action intact, and fully unchanged provided the earlier
branch-intent stage does not fire. -/
theorem explicit_regen_passthrough (d : AgentDecision) (p : String)
    (hact : d.action = .REGENERATE_SCREEN)
    (hspecs : d.regenerateSpecs.getD [] ≠ [])
    (hexp : isExplicitRegen (strToLower d.rationale) = true)
    (hnb : ¬(hasBranchIntent (strToLower p) (strToLower d.rationale) = true
        ∧ d.createBranch.getD false = false)) :
    normalizeDecision d true p = d := by
  simp only [normalizeDecision, hact, hspecs, hexp]
  simp
  split
  · exfalso
    exact hnb (by simp_all)
  · simp [hact, hexp]

/-- C5 witness: a from-scratch rationale with a neutral prompt is
returned verbatim. -/
theorem explicit_regen_passthrough_witness :
    normalizeDecision dC5 true "please redesign" = dC5 :=
  explicit_regen_passthrough dC5 "please redesign" (by decide) (by decide)
    (by decide) (by decide)

/-- C5 counterexample: the claim says such a decision is returned
otherwise unchanged; with a branch phrase in the prompt and the branch
flag unset, the returned decision differs from the input (its branch
flag was forced true), though the action stays full-regeneration. -/
theorem explicit_regen_passthrough_counterexample :
    0 < (mapValues exSession.components).length
    ∧ dC5.action = .REGENERATE_SCREEN
    ∧ isExplicitRegen (strToLower dC5.rationale) = true
    ∧ (normalizeDecision dC5 true "make a duplicate of this page").action
        = .REGENERATE_SCREEN
    ∧ normalizeDecision dC5 true "make a duplicate of this page" ≠ dC5 := by
  decide

/-- C6: with existing units, a branch phrase in prompt or rationale and
an unset branch flag force the flag true; a decision whose flag is
already set keeps it, and with no existing units the flag is left
exactly as it was. -/
theorem branch_intent_detection (d : AgentDecision) (p : String) :
    (hasBranchIntent (strToLower p) (strToLower d.rationale) = true →
      d.createBranch.getD false = false →
      (normalizeDecision d true p).createBranch = some true)
    ∧ (d.createBranch = some true →
      ∀ hasExisting : Bool,
        (normalizeDecision d hasExisting p).createBranch = some true)
    ∧ (normalizeDecision d false p).createBranch = d.createBranch := by
  refine ⟨fun hint hunset => ?_, fun hset hasExisting => ?_, ?_⟩
  · rw [normalizeDecision_createBranch, if_pos ⟨rfl, hint, hunset⟩]
  · rw [normalizeDecision_createBranch]
    split
    · rfl
    · exact hset
  · rw [normalizeDecision_createBranch]
    rw [if_neg (fun hc => by simpa using hc.1)]

/-- C6 witness: the spec example — a duplicate request against existing
units with the flag unset comes back with the flag forced true. -/
theorem branch_intent_detection_witness :
    (normalizeDecision dRegen true "create a duplicate with dark mode").createBranch
      = some true :=
  (branch_intent_detection dRegen "create a duplicate with dark mode").1
    (by decide) (by decide)

/-- C7: reference resolution is a pure function of the session — an
identifier-shaped string is returned verbatim with no existence check,
and any other string resolves to the first case-insensitive substring
match over the unit names in mapping insertion order (`none` when
nothing matches). -/
theorem resolver_deterministic (s : SessionState) (r : String) :
    (isUuidLike r = true → resolveComponentId s r = some r)
    ∧ (isUuidLike r = false →
      resolveComponentId s r =
        (((mapValues s.components).filter fun c =>
            strIncludes (strToLower c.name) (strToLower r)).head?).map
          Component.id) :=
  ⟨resolveComponentId_uuid s r, resolveComponentId_name s r⟩

/-- C7 witness: with Header then Header Section, resolving header in
either case yields the identifier of Header. -/
theorem resolver_deterministic_witness :
    resolveComponentId hdrSession "header"
        = some "aaaaaaaa-aaaa-aaaa-aaaa-aaaaaaaaaaaa"
    ∧ resolveComponentId hdrSession "HeAdEr"
        = some "aaaaaaaa-aaaa-aaaa-aaaa-aaaaaaaaaaaa" :=
  ⟨((resolver_deterministic hdrSession "header").2 (by decide)).trans (by decide),
   ((resolver_deterministic hdrSession "HeAdEr").2 (by decide)).trans (by decide)⟩

/-- C8: a failed generation call never writes — creation leaves the
session untouched, an update leaves the target unit byte-for-byte as it
was, and one job's failure never prevents a sibling job of the same
batch from landing in the unit mapping. -/
theorem failed_generation_no_write :
    (∀ (e : String) (fid : String) (now : Nat) (s : SessionState)
        (name description requirements : String) (styleHints : Option String),
      createComponent (.error e) fid now s name description requirements
        styleHints = (.error e, s))
    ∧ (∀ (e : String) (cid change : String) (now : Nat) (s : SessionState),
      (updateComponent (.error e) cid change now s).2 = s)
    ∧ (∀ (now : Nat) (s : SessionState) (jobs : List GenJob)
        (spec : NewComponentSpec) (out : GenOutput) (fid : String),
      (spec, Except.ok out, fid) ∈ jobs →
        mapHas (runCreates now s jobs).2.components fid = true) := by
  refine ⟨fun e fid now s n d r sh => rfl, fun e cid chg now s => ?_,
    fun now s jobs spec out fid hmem =>
      runCreates_mapHas_ok now jobs s spec out fid hmem⟩
  unfold updateComponent
  rcases mapGet s.components cid with _ | c <;> rfl

/-- C8 witness: a failing update leaves the concrete session untouched,
and in a two-job batch whose first job fails the second one still lands. -/
theorem failed_generation_no_write_witness :
    (updateComponent (.error "boom") headerComp.id "darker" 9 exSession).2
      = exSession
    ∧ mapHas (runCreates 9 sEmpty
        [(⟨"A", "d", "r", none⟩, Except.error "x", "id-a"),
         (⟨"B", "d", "r", none⟩, Except.ok ⟨"<b/>", "b"⟩, "id-b")]).2.components
        "id-b" = true :=
  ⟨failed_generation_no_write.2.1 "boom" headerComp.id "darker" 9 exSession,
   failed_generation_no_write.2.2 9 sEmpty _ ⟨"B", "d", "r", none⟩
     ⟨"<b/>", "b"⟩ "id-b" (by decide)⟩

set_option maxRecDepth 40000 in
/-- C9: the context summary built for the reasoning service always
reports the constant layout tag stack — on a session whose composition
carries grid-2, the summary contains CURRENT LAYOUT: stack and not
CURRENT LAYOUT: grid-2, because `makeDecision` never passes the current
layout to the formatter. -/
theorem decision_context_constant_layout :
    (s9.screen.map Screen.layout) = some "grid-2"
    ∧ strIncludes (decisionContext s9 "add a chart") "CURRENT LAYOUT: stack" = true
    ∧ strIncludes (decisionContext s9 "add a chart") "CURRENT LAYOUT: grid-2" = false := by
  decide

/-- C10: when a normalized full-regeneration decision with nonempty
specs reaches `runAgent` and every generation fails, the call reports
failure while the session is left with an empty unit mapping and no
composition — the units that existed before the call are not restored. -/
theorem regen_clear_not_restored (s : SessionState) (prompt : String)
    (d : AgentDecision) (ug cg : List (Except String GenOutput))
    (ids : List String) (eid : String) (now : Nat)
    (hact : d.action = .REGENERATE_SCREEN)
    (hspecs : d.regenerateSpecs.getD [] ≠ [])
    (hfail : ∀ g ∈ cg, genOk g = false) :
    runAgent s prompt (.ok d) ug cg ids eid now =
      ({ success := false, rationale := some d.rationale,
         error := some "Failed to create any components", decision := none },
       { s with messages := s.messages ++ [⟨"user", prompt, now⟩],
                components := [], screen := none }) :=
  runAgent_regen_allFail s prompt d ug cg ids eid now hact hspecs
    (createdOf_eq_nil_of_allFail now _ cg ids hfail)

/-- C10 witness: a session holding Header and Footer ends up empty after
an all-fail regeneration batch, with the failure reported. -/
theorem regen_clear_not_restored_witness :
    runAgent exSession "redo it all"
        (.ok { dRegen with rationale := "rebuild everything from scratch" })
        [] [.error "service down"] ["id-new"] "e1" 7 =
      ({ success := false,
         rationale := some "rebuild everything from scratch",
         error := some "Failed to create any components", decision := none },
       { exSession with
           messages := [⟨"user", "redo it all", 7⟩],
           components := [], screen := none }) := by
  have h := regen_clear_not_restored exSession "redo it all"
    { dRegen with rationale := "rebuild everything from scratch" }
    [] [.error "service down"] ["id-new"] "e1" 7 (by decide) (by decide)
    (by decide)
  exact h.trans (by decide)

end AgentCore
